import Mathlib

/-!
Verification development for `vdmfd.py` (Neuro-NX/vdmfd).

The program is embedded shallowly: Python strings become `List Char`,
Python floats become `ℚ` (every number the script manipulates is far from
float rounding, so rational arithmetic is a faithful model of the
comparisons involved), exceptions become `Except Unit`, and the ffprobe
JSON record becomes the `MediaRecord` structure.  Each definition carries a
comment pointing at the source lines it embeds.
-/

set_option linter.unusedVariables false

/-- Python strings are modelled as lists of characters. -/
abbrev Str := List Char

/-- Coerce a Lean string literal into the `List Char` model. -/
def str (s : String) : Str := s.data

/-- Python `str.lower()`, character-wise via `Char.toLower`.  This is
exact on ASCII (everything the recognised unit and kind tables contain);
outside ASCII, Python lowers some characters that `Char.toLower` leaves
unchanged, so claims that need the lowering of an arbitrary user token
are stated under the `asciiStr` guard. -/
def lowerCL (s : Str) : Str := s.map Char.toLower

/-- Worker for `splitOnChar`; `acc` holds the current chunk reversed. -/
def splitOnCharAux (c : Char) : Str → Str → List Str
  | [], acc => [acc.reverse]
  | x :: xs, acc =>
    if x = c then acc.reverse :: splitOnCharAux c xs []
    else splitOnCharAux c xs (x :: acc)

/-- Python `s.split(c)` for a one-character separator: splits at every
occurrence, keeping empty chunks, and returns `[s]` when `c` is absent. -/
def splitOnChar (c : Char) (s : Str) : List Str := splitOnCharAux c s []

/-- All characters are ASCII digits. -/
def allDigits (s : Str) : Bool := s.all Char.isDigit

/-- Numeric value of a digit string (most significant first). -/
def digitsVal (s : Str) : Nat := s.foldl (fun acc c => acc * 10 + (c.toNat - 48)) 0

/-- Digits part of the Python `float()` model: an optional integer part, an
optional single decimal point and an optional fractional part, with at
least one digit overall. -/
def pyFloatDigits (sign : ℚ) (body : Str) : Option ℚ :=
  match splitOnChar '.' body with
  | [ip] =>
    if ip.isEmpty then none
    else if allDigits ip then some (sign * (digitsVal ip : ℚ)) else none
  | [ip, fp] =>
    if ip.isEmpty && fp.isEmpty then none
    else if allDigits ip && allDigits fp then
      some (sign * ((digitsVal ip : ℚ) + (digitsVal fp : ℚ) / ((10 : ℚ) ^ fp.length)))
    else none
  | _ => none

/-- Model of Python `float(str)` on plain decimal tokens: an optional
sign followed by decimal digits with at most one point.  This is an
under-approximation of the builtin: `float()` additionally accepts
exponents (`1e3`), surrounding whitespace, digit-group underscores
(`1_0`) and `inf`/`nan`, which this model rejects.  Consequently the
model is used in two sound ways only: success-conditioned (every token
it accepts, `float()` accepts with the same value), and failure-side
statements restricted by `plainNumStr` to the sign/digit/dot alphabet,
on which the model agrees with `float()` exactly.  `none` models the
`ValueError` that `float` raises. -/
def pyFloat? (s : Str) : Option ℚ :=
  match s with
  | [] => pyFloatDigits 1 []
  | c :: t =>
    if c = '-' then pyFloatDigits (-1) t
    else if c = '+' then pyFloatDigits 1 t
    else pyFloatDigits 1 (c :: t)

/-- `os.path.basename` for POSIX paths: everything after the last slash. -/
def basenameOf (p : Str) : Str := (p.reverse.takeWhile (· != '/')).reverse

/-- `os.path.dirname` for POSIX paths: everything before the last slash,
with trailing slashes stripped unless the prefix is all slashes. -/
def dirnameOf (p : Str) : Str :=
  let base := basenameOf p
  let head := p.take (p.length - base.length)
  if head.any (· != '/') then (head.reverse.dropWhile (· == '/')).reverse else head

/-- The extension (with leading dot) that `os.path.splitext` would return:
the suffix of the basename starting at its last dot, provided some
non-dot character precedes that dot (so dotfiles have no extension). -/
def extOf (p : Str) : Str :=
  let base := basenameOf p
  let revAfterDot := base.reverse.takeWhile (· != '.')
  if revAfterDot.length = base.length then []
  else
    let stem := base.take (base.length - revAfterDot.length - 1)
    if stem.any (· != '.') then '.' :: revAfterDot.reverse else []

/-- `os.path.join(root, file)` for a relative `file` component. -/
def joinPath (root file : Str) : Str := root ++ '/' :: file

/-- Bool-valued list-prefix test used by `containsSub`. -/
def isPrefixCL : Str → Str → Bool
  | [], _ => true
  | _ :: _, [] => false
  | x :: xs, y :: ys => x == y && isPrefixCL xs ys

/-- Python substring containment `needle in hay`. -/
def containsSub : Str → Str → Bool
  | needle, [] => needle.isEmpty
  | needle, c :: rest => isPrefixCL needle (c :: rest) || containsSub needle rest

/-- Absolute value on `ℚ`, kept as a plain `if` so terms evaluate. -/
def qabs (q : ℚ) : ℚ := if q < 0 then -q else q

/-- Maximum on `ℚ`, kept as a plain `if` so terms evaluate. -/
def qmax (a b : ℚ) : ℚ := if a ≤ b then b else a

/-- Python `math.isclose(a, b, rel_tol=0.01)` with the default
`abs_tol=0.0`: `abs(a-b) <= 0.01 * max(abs(a), abs(b))`. -/
def isclose (a b : ℚ) : Bool :=
  decide (qabs (a - b) ≤ (1 / 100) * qmax (qabs a) (qabs b))

/-- The logical-operator values `parse_args` can attach to a criterion
(`"AND"`, `"OR"`, or `None` modelled by `Option`). -/
inductive LogOp
  | AND
  | OR
deriving DecidableEq

/-- One element of `criteria_list`: the tuple
`(crit, comp_operator, crit_value, pending_logical)` built at line 510. -/
structure Criterion where
  crit : Str
  comp_operator : Str
  value : Str
  logical : Option LogOp
deriving DecidableEq

/-- One entry of the ffprobe `streams` list, restricted to the keys
`check_criteria` reads.  A missing key is `none`. -/
structure StreamInfo where
  codec_type : Str
  codec_name : Option Str
  codec_tag_string : Option Str
  display_aspect_ratio : Option Str
  width : Option ℚ
  height : Option ℚ
  pix_fmt : Option Str
  r_frame_rate : Option Str
deriving DecidableEq

/-- The parsed ffprobe metadata consumed by `check_criteria`:
`format.duration` and `format.size` default to 0 when absent (line
254-255), `format.bit_rate` keeps its optionality (line 256), and
`streams` is the stream list. -/
structure MediaRecord where
  duration : ℚ
  size : ℚ
  bit_rate : Option ℚ
  streams : List StreamInfo
deriving DecidableEq

/-- `SIZE_UNITS` (lines 138-143): binary multipliers for file size. -/
def SIZE_UNITS (u : Str) : Option ℚ :=
  if u = str "b" then some 1
  else if u = str "kb" then some 1024
  else if u = str "mb" then some (1024 * 1024)
  else if u = str "gb" then some (1024 * 1024 * 1024)
  else none

/-- `VIDEO_EXT` (lines 148-161). -/
def VIDEO_EXT : List Str :=
  [str ".avi", str ".divx", str ".flv", str ".mkv", str ".mov", str ".mp4",
   str ".m4v", str ".mpeg", str ".mpg", str ".webm", str ".wmv", str ".3gp"]

/-- `VIDEO_PARTS_EXT` (lines 163-176): declared in the source but never
consulted by any filtering logic. -/
def VIDEO_PARTS_EXT : List Str :=
  [str ".ts", str ".seg", str ".part", str ".crdownload", str ".exi",
   str ".exo", str ".ogv", str ".ogm", str ".ogg", str ".m4s"]

/-- `parse_size_arg` (lines 181-190).  `arg.split(":")` must produce
exactly two chunks (the tuple unpack raises otherwise), the number must
parse and the lower-cased unit must be a `SIZE_UNITS` key; every failure
is converted to one `ValueError`, modelled as `.error ()`. -/
def parse_size_arg (arg : Str) : Except Unit (ℚ × Str) :=
  match splitOnChar ':' arg with
  | [v, u] =>
    match pyFloat? v with
    | none => .error ()
    | some value =>
      let unit := lowerCL u
      if (SIZE_UNITS unit).isSome then .ok (value, unit) else .error ()
  | _ => .error ()

/-- `parse_duration_arg` (lines 192-208): same token shape, with the unit
checked against the three membership lists of the source and multiplied
into the value. -/
def parse_duration_arg (arg : Str) : Except Unit ℚ :=
  match splitOnChar ':' arg with
  | [v, u] =>
    match pyFloat? v with
    | none => .error ()
    | some value =>
      let unit := lowerCL u
      if unit ∈ [str "sec", str "s", str "seconds"] then .ok (value * 1)
      else if unit ∈ [str "min", str "m", str "minutes"] then .ok (value * 60)
      else if unit ∈ [str "hr", str "h", str "hours"] then .ok (value * 3600)
      else .error ()
  | _ => .error ()

/-- Line 256: `float(fmt.get("bit_rate", 0)) if fmt.get("bit_rate") else 0`. -/
def record_bitrate (metadata : MediaRecord) : ℚ :=
  match metadata.bit_rate with
  | some b => b
  | none => 0

/-- Lines 258-262: the first stream whose `codec_type` is `"video"`. -/
def find_video_stream (metadata : MediaRecord) : Option StreamInfo :=
  metadata.streams.find? (fun s => decide (s.codec_type = str "video"))

/-- Lines 381-389: parse `r_frame_rate` as `num/den`, falling back to a
bare float and then to 0.  `float(num)` is only evaluated when the
denominator is nonzero, exactly as in the conditional expression. -/
def parse_frame_rate (fr_str : Str) : ℚ :=
  let fallback : ℚ :=
    match pyFloat? fr_str with
    | some f => f
    | none => 0
  match splitOnChar '/' fr_str with
  | [numS, denS] =>
    match pyFloat? denS with
    | some de =>
      if de = 0 then 0
      else
        match pyFloat? numS with
        | some nu => nu / de
        | none => fallback
    | none => fallback
  | _ => fallback

/-- The five-way comparison block that `check_criteria` repeats verbatim at
lines 266-275, 279-288, 300-309, 345-354 and 394-403, including the
fall-through to the final `return False` (line 404) when `comp_op` is
none of the five operators. -/
def comp_chain (comp_op : Str) (current target : ℚ) : Bool :=
  if comp_op = str "eq" then isclose current target
  else if comp_op = str "gt" then decide (current > target)
  else if comp_op = str "gte" then decide (current ≥ target)
  else if comp_op = str "lt" then decide (current < target)
  else if comp_op = str "lte" then decide (current ≤ target)
  else false

/-- `check_criteria` (lines 242-404).  A `.error ()` result models an
uncaught Python exception escaping the function; note that the
`duration` and `size` branches call the unit parsers unprotected while
the `bitrate` branch wraps its parse in `try/except` returning `False`. -/
def check_criteria (metadata : MediaRecord) (filepath crit_type comp_op crit_value : Str) :
    Except Unit Bool :=
  if crit_type = str "path" then
    .ok (containsSub (lowerCL crit_value) (lowerCL (dirnameOf filepath)))
  else if crit_type = str "filename" then
    .ok (containsSub (lowerCL crit_value) (lowerCL (basenameOf filepath)))
  else if crit_type = str "container" then
    .ok (decide (lowerCL crit_value = lowerCL ((extOf filepath).drop 1)))
  else
    let duration := metadata.duration
    let size := metadata.size
    let bitrate := record_bitrate metadata
    let video_stream := find_video_stream metadata
    if crit_type = str "duration" then
      match parse_duration_arg crit_value with
      | .error e => .error e
      | .ok target => .ok (comp_chain comp_op duration target)
    else if crit_type = str "size" then
      match parse_size_arg crit_value with
      | .error e => .error e
      | .ok vu => .ok (comp_chain comp_op size (vu.1 * (SIZE_UNITS vu.2).getD 0))
    else if crit_type = str "bitrate" then
      .ok (match parse_size_arg crit_value with
        | .error _ => false
        | .ok vu =>
          let target_kbps :=
            if vu.2 = str "kb" then vu.1
            else if vu.2 = str "mb" then vu.1 * 1000
            else if vu.2 = str "gb" then vu.1 * 1000000
            else vu.1
          comp_chain comp_op bitrate target_kbps)
    else if crit_type = str "codec_name" then
      .ok (match video_stream with
        | none => false
        | some vs =>
          match vs.codec_name with
          | none => false
          | some cn => decide (lowerCL crit_value = lowerCL cn))
    else if crit_type = str "codec_tag" then
      .ok (match video_stream with
        | none => false
        | some vs =>
          match vs.codec_tag_string with
          | none => false
          | some ct => decide (lowerCL crit_value = lowerCL ct))
    else if crit_type = str "aspect" then
      .ok (match video_stream with
        | none => false
        | some vs =>
          match vs.display_aspect_ratio with
          | none => false
          | some a => decide (crit_value = a))
    else if crit_type = str "width" ∨ crit_type = str "height" then
      .ok (match video_stream with
        | none => false
        | some vs =>
          match pyFloat? ((splitOnChar ':' crit_value).headD []) with
          | none => false
          | some target =>
            match (if crit_type = str "width" then vs.width else vs.height) with
            | none => false
            | some current => comp_chain comp_op current target)
    else if crit_type = str "orientation" then
      .ok (match video_stream with
        | none => false
        | some vs =>
          match vs.width, vs.height with
          | some w, some h =>
            let o := lowerCL crit_value
            if o = str "landscape" ∨ o = str "l" then decide (w > h)
            else if o = str "portrait" ∨ o = str "p" then decide (w < h)
            else if o = str "square" ∨ o = str "sq" then decide (w = h)
            else false
          | _, _ => false)
    else if crit_type = str "pix_fmt" then
      .ok (match video_stream with
        | none => false
        | some vs =>
          match vs.pix_fmt with
          | none => false
          | some p => decide (lowerCL crit_value = lowerCL p))
    else if crit_type = str "framerate" then
      .ok (match video_stream with
        | none => false
        | some vs =>
          let fr := parse_frame_rate (vs.r_frame_rate.getD (str "0/1"))
          match pyFloat? ((splitOnChar ':' crit_value).headD []) with
          | none => false
          | some target => comp_chain comp_op fr target)
    else .ok false

/-- The loop of `satisfies_conditions` (lines 525-532), with the running
`result` threaded explicitly. -/
def satisfies_loop (metadata : MediaRecord) (filepath : Str) :
    List Criterion → Bool → Except Unit Bool
  | [], result => .ok result
  | c :: rest, result =>
    match check_criteria metadata filepath c.crit c.comp_operator c.value with
    | .error e => .error e
    | .ok current =>
      let op_to_use := c.logical.getD LogOp.AND
      satisfies_loop metadata filepath rest
        (match op_to_use with
         | LogOp.AND => result && current
         | LogOp.OR => result || current)

/-- `satisfies_conditions` (lines 518-533). -/
def satisfies_conditions (metadata : MediaRecord) (filepath : Str)
    (criteria_list : List Criterion) : Except Unit Bool :=
  match criteria_list with
  | [] => .ok true
  | c0 :: rest =>
    match check_criteria metadata filepath c0.crit c0.comp_operator c0.value with
    | .error e => .error e
    | .ok result => satisfies_loop metadata filepath rest result

/-- `is_video` (lines 535-540). -/
def is_video (filepath : Str) : Bool :=
  let ext := lowerCL (extOf filepath)
  decide (ext ∈ VIDEO_EXT)

/-- Observable behaviour of one worker-task run of `get_and_check_file`:
its return value, the paths it handed to `get_video_metadata`, and the
paths for which it printed the "Skipped file ... Could not read
metadata" block (the only output the function produces). -/
structure FileOutcome where
  result : Option Str
  fetched : List Str
  skip_prints : List Str
deriving DecidableEq

/-- `get_and_check_file` (lines 542-556), with the ffprobe call abstracted
as `fetch`.  Non-videos return `None` at once; otherwise metadata is
fetched and, whether usable (`some`) or not (`none`), the function ends
without another `return`, i.e. it returns `None` — the criteria are never
consulted and no filepath is ever returned. -/
def get_and_check_file (fetch : Str → Option MediaRecord) (filepath : Str)
    (criteria_list : List Criterion) : FileOutcome :=
  if is_video filepath then
    match fetch filepath with
    | none => { result := none, fetched := [filepath], skip_prints := [filepath] }
    | some _ => { result := none, fetched := [filepath], skip_prints := [] }
  else
    { result := none, fetched := [], skip_prints := [] }

/-- The submission loop of `main` (lines 577-580): every file produced by
`os.walk`, whatever its extension, is joined to its root and submitted to
the executor.  `walk` is the list of `(root, files)` pairs the walk
yields. -/
def main_jobs (walk : List (Str × List Str)) : List Str :=
  walk.flatMap (fun rf => rf.2.map (fun f => joinPath rf.1 f))

/-- The collection loop of `main` (lines 581-591): each job result is
appended to `results` when truthy (a non-`None`, non-empty string). -/
def main_results (fetch : Str → Option MediaRecord) (walk : List (Str × List Str))
    (criteria_list : List Criterion) : List Str :=
  (main_jobs walk).foldl
    (fun results fp =>
      match (get_and_check_file fetch fp criteria_list).result with
      | some s => if s.isEmpty then results else results ++ [s]
      | none => results)
    []

/-- The fourteen criterion kinds `check_criteria` recognises. -/
def RECOGNISED_KINDS : List Str :=
  [str "path", str "filename", str "container", str "duration", str "size",
   str "bitrate", str "codec_name", str "codec_tag", str "aspect", str "width",
   str "height", str "orientation", str "pix_fmt", str "framerate"]

/-- One criterion evaluation paired with its preceding logical operator;
this is the elementary step the specification's fold consumes. -/
def criterion_eval (md : MediaRecord) (fp : Str) (c : Criterion) :
    Except Unit (Bool × Option LogOp) :=
  (check_criteria md fp c.crit c.comp_operator c.value).map (fun b => (b, c.logical))

/-- Evaluate every criterion of the list, in order, stopping at the first
raised exception. -/
def eval_list (md : MediaRecord) (fp : Str) : List Criterion →
    Except Unit (List (Bool × Option LogOp))
  | [] => .ok []
  | c :: rest =>
    match criterion_eval md fp c with
    | .error e => .error e
    | .ok e =>
      match eval_list md fp rest with
      | .error e2 => .error e2
      | .ok es => .ok (e :: es)

/-- The specification's combining step: `result op c`, with a missing
operator treated as AND. -/
def combineLTR (result : Bool) (e : Bool × Option LogOp) : Bool :=
  match e.2.getD LogOp.AND with
  | LogOp.AND => result && e.1
  | LogOp.OR => result || e.1

/-- The specification's strict left-to-right fold: seed with the first
evaluation, then combine one criterion at a time; empty means `true`. -/
def ltr_combine : List (Bool × Option LogOp) → Bool
  | [] => true
  | e :: rest => rest.foldl combineLTR e.1

/-- A minimal record: empty metadata, no streams. -/
def mdPlain : MediaRecord := { duration := 0, size := 0, bit_rate := none, streams := [] }

/-- The video stream of the specification's `movie.mp4` scenario. -/
def movieStream : StreamInfo :=
  { codec_type := str "video", codec_name := some (str "h264"),
    codec_tag_string := some (str "avc1"), display_aspect_ratio := some (str "16:9"),
    width := some 1920, height := some 1080, pix_fmt := some (str "yuv420p"),
    r_frame_rate := some (str "30/1") }

/-- `movie.mp4` of the specification's scenario: duration 120 s, size
200 MiB = 209715200 bytes. -/
def movieMeta : MediaRecord :=
  { duration := 120, size := 209715200, bit_rate := some 1400, streams := [movieStream] }

/-- The criteria list the parser would build for `-size -gte 100:mb`. -/
def sizeGte100mb : List Criterion :=
  [{ crit := str "size", comp_operator := str "gte", value := str "100:mb", logical := none }]

/-- Stream whose numeric fields all sit exactly 1.5 percent above 200. -/
def vsW : StreamInfo :=
  { codec_type := str "video", codec_name := some (str "h264"),
    codec_tag_string := some (str "avc1"), display_aspect_ratio := some (str "16:9"),
    width := some 203, height := some 203, pix_fmt := some (str "yuv420p"),
    r_frame_rate := some (str "203/1") }

/-- Record whose numeric fields all sit exactly 1.5 percent above 200. -/
def mdW : MediaRecord :=
  { duration := 203, size := 203, bit_rate := some 203, streams := [vsW] }

/-- Record with a bitrate of 250000 (kbps-equivalent scale). -/
def mdW8 : MediaRecord :=
  { duration := 0, size := 0, bit_rate := some 250000, streams := [] }

/-- An audio stream (not a video stream). -/
def audioStream : StreamInfo :=
  { codec_type := str "audio", codec_name := some (str "aac"),
    codec_tag_string := none, display_aspect_ratio := none, width := none,
    height := none, pix_fmt := none, r_frame_rate := none }

/-- Record whose only stream is an audio stream: no video stream. -/
def mdNoStream : MediaRecord :=
  { duration := 7, size := 9, bit_rate := none, streams := [audioStream] }


/-! ### Generic lemmas about the string model -/

lemma splitOnCharAux_not (c : Char) (s : Str) :
    ∀ acc : Str, c ∉ s → splitOnCharAux c s acc = [acc.reverse ++ s] := by
  induction s with
  | nil => intro acc _; simp [splitOnCharAux]
  | cons x xs ih =>
    intro acc h
    rw [List.mem_cons, not_or] at h
    rw [splitOnCharAux, if_neg (fun e => h.1 e.symm), ih _ h.2]
    simp

lemma splitOnChar_not (c : Char) (s : Str) (h : c ∉ s) : splitOnChar c s = [s] := by
  rw [splitOnChar, splitOnCharAux_not c s [] h]
  simp

lemma splitOnCharAux_mid (c : Char) (b : Str) :
    ∀ (a : Str), c ∉ a → ∀ acc,
      splitOnCharAux c (a ++ c :: b) acc = (acc.reverse ++ a) :: splitOnChar c b := by
  intro a
  induction a with
  | nil => intro _ acc; rw [List.nil_append, splitOnCharAux, if_pos rfl]; simp [splitOnChar]
  | cons x xs ih =>
    intro h acc
    rw [List.mem_cons, not_or] at h
    rw [List.cons_append, splitOnCharAux, if_neg (fun e => h.1 e.symm), ih h.2]
    simp

lemma splitOnChar_mid (c : Char) (a b : Str) (ha : c ∉ a) :
    splitOnChar c (a ++ c :: b) = a :: splitOnChar c b := by
  rw [splitOnChar, splitOnCharAux_mid c b a ha]
  simp

lemma splitOnChar_two (c : Char) (a b : Str) (ha : c ∉ a) (hb : c ∉ b) :
    splitOnChar c (a ++ c :: b) = [a, b] := by
  rw [splitOnChar_mid c a b ha, splitOnChar_not c b hb]

lemma splitOnCharAux_acc_sub (c : Char) (s : Str) :
    ∀ acc : Str, ∃ p ∈ splitOnCharAux c s acc, ∀ z ∈ acc, z ∈ p := by
  induction s with
  | nil =>
    intro acc
    refine ⟨acc.reverse, by simp [splitOnCharAux], fun z hz => by simp [hz]⟩
  | cons x xs ih =>
    intro acc
    rw [splitOnCharAux]
    by_cases hx : x = c
    · rw [if_pos hx]
      exact ⟨acc.reverse, List.mem_cons_self _ _, fun z hz => by simp [hz]⟩
    · rw [if_neg hx]
      obtain ⟨p, hp, hall⟩ := ih (x :: acc)
      exact ⟨p, hp, fun z hz => hall z (List.mem_cons_of_mem _ hz)⟩

lemma splitOnCharAux_mem_exists (c : Char) (s : Str) :
    ∀ (acc : Str) (z : Char), z ∈ s → z ≠ c →
      ∃ p ∈ splitOnCharAux c s acc, z ∈ p := by
  induction s with
  | nil => intro acc z hz _; cases hz
  | cons x xs ih =>
    intro acc z hz hzc
    rw [splitOnCharAux]
    by_cases hx : x = c
    · rw [if_pos hx]
      rcases List.mem_cons.mp hz with h1 | h1
      · exact absurd (h1.trans hx) hzc
      · obtain ⟨p, hp, hzp⟩ := ih [] z h1 hzc
        exact ⟨p, List.mem_cons_of_mem _ hp, hzp⟩
    · rw [if_neg hx]
      rcases List.mem_cons.mp hz with h1 | h1
      · obtain ⟨p, hp, hall⟩ := splitOnCharAux_acc_sub c xs (x :: acc)
        exact ⟨p, hp, h1 ▸ hall x (List.mem_cons_self _ _)⟩
      · exact ih (x :: acc) z h1 hzc

lemma splitOnChar_mem_exists (c : Char) (s : Str) (z : Char) (hz : z ∈ s) (hzc : z ≠ c) :
    ∃ p ∈ splitOnChar c s, z ∈ p :=
  splitOnCharAux_mem_exists c s [] z hz hzc

lemma allDigits_mem (s : Str) (h : allDigits s = true) {z : Char} (hz : z ∈ s) :
    z.isDigit = true := by
  rw [allDigits, List.all_eq_true] at h
  exact h z hz

lemma lowerCL_colon_mem (s : Str) (h : ':' ∈ s) : ':' ∈ lowerCL s :=
  List.mem_map.mpr ⟨':', h, by decide⟩

lemma pyFloatDigits_colon_not (sign : ℚ) (body : Str) (n : ℚ)
    (h : pyFloatDigits sign body = some n) : ':' ∉ body := by
  intro hc
  obtain ⟨p, hp, hcp⟩ := splitOnChar_mem_exists '.' body ':' hc (by decide)
  rw [pyFloatDigits] at h
  split at h
  · next ip heq =>
    rw [heq] at hp
    rcases List.mem_cons.mp hp with h1 | h1
    · subst h1
      split_ifs at h with h2 h3
      · have := allDigits_mem p h3 hcp
        simp at this
    · cases h1
  · next ip fp heq =>
    rw [heq] at hp
    split_ifs at h with h2 h3
    · rw [Bool.and_eq_true] at h3
      rcases List.mem_cons.mp hp with h1 | h1
      · subst h1
        have := allDigits_mem p h3.1 hcp
        simp at this
      · rcases List.mem_cons.mp h1 with h4 | h4
        · subst h4
          have := allDigits_mem p h3.2 hcp
          simp at this
        · cases h4
  · exact Option.noConfusion h

lemma pyFloat_colon_not (s : Str) (n : ℚ) (h : pyFloat? s = some n) : ':' ∉ s := by
  intro hc
  cases s with
  | nil => cases hc
  | cons c t =>
    rw [pyFloat?] at h
    split_ifs at h with h1 h2
    · rcases List.mem_cons.mp hc with h3 | h3
      · subst h1; cases h3
      · exact pyFloatDigits_colon_not _ _ _ h h3
    · rcases List.mem_cons.mp hc with h3 | h3
      · subst h2; cases h3
      · exact pyFloatDigits_colon_not _ _ _ h h3
    · exact pyFloatDigits_colon_not _ _ _ h hc

lemma SIZE_UNITS_colon_not (u : Str) (m : ℚ) (h : SIZE_UNITS u = some m) : ':' ∉ u := by
  rw [SIZE_UNITS] at h
  split_ifs at h with h1 h2 h3 h4
  · subst h1; decide
  · subst h2; decide
  · subst h3; decide
  · subst h4; decide

/-- If the lower-cased unit is a recognised size unit, the raw unit string
contains no colon (so the token splits into exactly two chunks). -/
lemma SIZE_UNITS_lower_colon_not (u : Str) (m : ℚ) (h : SIZE_UNITS (lowerCL u) = some m) :
    ':' ∉ u :=
  fun hc => SIZE_UNITS_colon_not _ _ h (lowerCL_colon_mem u hc)

/-! ### Evaluation lemmas: `check_criteria` at each concrete criterion kind -/

lemma check_path_eval (md : MediaRecord) (fp op v : Str) :
    check_criteria md fp (str "path") op v =
      .ok (containsSub (lowerCL v) (lowerCL (dirnameOf fp))) := rfl

lemma check_filename_eval (md : MediaRecord) (fp op v : Str) :
    check_criteria md fp (str "filename") op v =
      .ok (containsSub (lowerCL v) (lowerCL (basenameOf fp))) := rfl

lemma check_container_eval (md : MediaRecord) (fp op v : Str) :
    check_criteria md fp (str "container") op v =
      .ok (decide (lowerCL v = lowerCL ((extOf fp).drop 1))) := rfl

lemma check_duration_eval (md : MediaRecord) (fp op v : Str) :
    check_criteria md fp (str "duration") op v =
      match parse_duration_arg v with
      | .error e => .error e
      | .ok target => .ok (comp_chain op md.duration target) := rfl

lemma check_size_eval (md : MediaRecord) (fp op v : Str) :
    check_criteria md fp (str "size") op v =
      match parse_size_arg v with
      | .error e => .error e
      | .ok vu => .ok (comp_chain op md.size (vu.1 * (SIZE_UNITS vu.2).getD 0)) := rfl

lemma check_bitrate_eval (md : MediaRecord) (fp op v : Str) :
    check_criteria md fp (str "bitrate") op v =
      .ok (match parse_size_arg v with
        | .error _ => false
        | .ok vu =>
          comp_chain op (record_bitrate md)
            (if vu.2 = str "kb" then vu.1
             else if vu.2 = str "mb" then vu.1 * 1000
             else if vu.2 = str "gb" then vu.1 * 1000000
             else vu.1)) := rfl

lemma check_codec_name_eval (md : MediaRecord) (fp op v : Str) :
    check_criteria md fp (str "codec_name") op v =
      .ok (match find_video_stream md with
        | none => false
        | some vs =>
          match vs.codec_name with
          | none => false
          | some cn => decide (lowerCL v = lowerCL cn)) := rfl

lemma check_codec_tag_eval (md : MediaRecord) (fp op v : Str) :
    check_criteria md fp (str "codec_tag") op v =
      .ok (match find_video_stream md with
        | none => false
        | some vs =>
          match vs.codec_tag_string with
          | none => false
          | some ct => decide (lowerCL v = lowerCL ct)) := rfl

lemma check_aspect_eval (md : MediaRecord) (fp op v : Str) :
    check_criteria md fp (str "aspect") op v =
      .ok (match find_video_stream md with
        | none => false
        | some vs =>
          match vs.display_aspect_ratio with
          | none => false
          | some a => decide (v = a)) := rfl

lemma check_width_eval (md : MediaRecord) (fp op v : Str) :
    check_criteria md fp (str "width") op v =
      .ok (match find_video_stream md with
        | none => false
        | some vs =>
          match pyFloat? ((splitOnChar ':' v).headD []) with
          | none => false
          | some target =>
            match vs.width with
            | none => false
            | some current => comp_chain op current target) := rfl

lemma check_height_eval (md : MediaRecord) (fp op v : Str) :
    check_criteria md fp (str "height") op v =
      .ok (match find_video_stream md with
        | none => false
        | some vs =>
          match pyFloat? ((splitOnChar ':' v).headD []) with
          | none => false
          | some target =>
            match vs.height with
            | none => false
            | some current => comp_chain op current target) := rfl

lemma check_orientation_eval (md : MediaRecord) (fp op v : Str) :
    check_criteria md fp (str "orientation") op v =
      .ok (match find_video_stream md with
        | none => false
        | some vs =>
          match vs.width, vs.height with
          | some w, some h =>
            if lowerCL v = str "landscape" ∨ lowerCL v = str "l" then decide (w > h)
            else if lowerCL v = str "portrait" ∨ lowerCL v = str "p" then decide (w < h)
            else if lowerCL v = str "square" ∨ lowerCL v = str "sq" then decide (w = h)
            else false
          | _, _ => false) := rfl

lemma check_pix_fmt_eval (md : MediaRecord) (fp op v : Str) :
    check_criteria md fp (str "pix_fmt") op v =
      .ok (match find_video_stream md with
        | none => false
        | some vs =>
          match vs.pix_fmt with
          | none => false
          | some p => decide (lowerCL v = lowerCL p)) := rfl

lemma check_framerate_eval (md : MediaRecord) (fp op v : Str) :
    check_criteria md fp (str "framerate") op v =
      .ok (match find_video_stream md with
        | none => false
        | some vs =>
          match pyFloat? ((splitOnChar ':' v).headD []) with
          | none => false
          | some target =>
            comp_chain op (parse_frame_rate (vs.r_frame_rate.getD (str "0/1"))) target) := rfl

lemma check_unknown_eval (md : MediaRecord) (fp kind op v : Str)
    (h : kind ∉ RECOGNISED_KINDS) : check_criteria md fp kind op v = .ok false := by
  rw [RECOGNISED_KINDS] at h
  simp only [List.mem_cons, List.not_mem_nil, or_false, not_or] at h
  obtain ⟨h1, h2, h3, h4, h5, h6, h7, h8, h9, h10, h11, h12, h13, h14⟩ := h
  rw [check_criteria]
  rw [if_neg h1, if_neg h2, if_neg h3, if_neg h4, if_neg h5, if_neg h6, if_neg h7,
    if_neg h8, if_neg h9, if_neg (by rintro (h | h) <;> [exact h10 h; exact h11 h]),
    if_neg h12, if_neg h13, if_neg h14]

/-! ### Facts about the shared comparison block -/

lemma comp_chain_eq_at (a b : ℚ) : comp_chain (str "eq") a b = isclose a b := rfl

lemma comp_chain_gt_at (a b : ℚ) : comp_chain (str "gt") a b = decide (a > b) := rfl

lemma comp_chain_gte_at (a b : ℚ) : comp_chain (str "gte") a b = decide (a ≥ b) := rfl

lemma comp_chain_lt_at (a b : ℚ) : comp_chain (str "lt") a b = decide (a < b) := rfl

lemma comp_chain_lte_at (a b : ℚ) : comp_chain (str "lte") a b = decide (a ≤ b) := rfl

lemma comp_chain_unknown (op : Str) (a b : ℚ)
    (h : op ∉ [str "eq", str "gt", str "gte", str "lt", str "lte"]) :
    comp_chain op a b = false := by
  simp only [List.mem_cons, List.not_mem_nil, or_false, not_or] at h
  obtain ⟨h1, h2, h3, h4, h5⟩ := h
  rw [comp_chain, if_neg h1, if_neg h2, if_neg h3, if_neg h4, if_neg h5]

/-- A value exactly 1.5 percent above a positive target is not within the
1 percent relative tolerance of `math.isclose`. -/
lemma isclose_above_false (t : ℚ) (ht : 0 < t) : isclose ((1015 / 1000) * t) t = false := by
  simp only [isclose, qabs, qmax, decide_eq_false_iff_not]
  split_ifs <;> intro hle <;> linarith

lemma decide_ge_above (t : ℚ) (ht : 0 < t) : decide ((1015 / 1000) * t ≥ t) = true := by
  rw [decide_eq_true_eq]
  linarith

/-! ### The left-to-right fold shape of `satisfies_conditions` -/

lemma satisfies_loop_eq (md : MediaRecord) (fp : Str) :
    ∀ (l : List Criterion) (init : Bool),
      satisfies_loop md fp l init =
        (eval_list md fp l).map (fun es => es.foldl combineLTR init) := by
  intro l
  induction l with
  | nil => intro init; rfl
  | cons c cs ih =>
    intro init
    rw [satisfies_loop, eval_list, criterion_eval]
    cases hc : check_criteria md fp c.crit c.comp_operator c.value with
    | error e => rfl
    | ok b =>
      show satisfies_loop md fp cs (combineLTR init (b, c.logical)) = _
      rw [ih]
      cases he : eval_list md fp cs with
      | error e2 => rfl
      | ok es => rfl

/-! ### Which criteria can raise -/

lemma check_duration_error_iff (md : MediaRecord) (fp op v : Str) :
    check_criteria md fp (str "duration") op v = .error () ↔
      parse_duration_arg v = .error () := by
  rw [check_duration_eval]
  cases hp : parse_duration_arg v with
  | error e => cases e; simp
  | ok t => simp

lemma check_size_error_iff (md : MediaRecord) (fp op v : Str) :
    check_criteria md fp (str "size") op v = .error () ↔
      parse_size_arg v = .error () := by
  rw [check_size_eval]
  cases hp : parse_size_arg v with
  | error e => cases e; simp
  | ok t => simp

lemma check_no_error_other (md : MediaRecord) (fp kind op v : Str)
    (hd : kind ≠ str "duration") (hs : kind ≠ str "size") :
    ∃ b, check_criteria md fp kind op v = .ok b := by
  by_cases h1 : kind = str "path"
  · exact ⟨_, h1 ▸ check_path_eval md fp op v⟩
  by_cases h2 : kind = str "filename"
  · exact ⟨_, h2 ▸ check_filename_eval md fp op v⟩
  by_cases h3 : kind = str "container"
  · exact ⟨_, h3 ▸ check_container_eval md fp op v⟩
  by_cases h6 : kind = str "bitrate"
  · exact ⟨_, h6 ▸ check_bitrate_eval md fp op v⟩
  by_cases h7 : kind = str "codec_name"
  · exact ⟨_, h7 ▸ check_codec_name_eval md fp op v⟩
  by_cases h8 : kind = str "codec_tag"
  · exact ⟨_, h8 ▸ check_codec_tag_eval md fp op v⟩
  by_cases h9 : kind = str "aspect"
  · exact ⟨_, h9 ▸ check_aspect_eval md fp op v⟩
  by_cases h10 : kind = str "width"
  · exact ⟨_, h10 ▸ check_width_eval md fp op v⟩
  by_cases h11 : kind = str "height"
  · exact ⟨_, h11 ▸ check_height_eval md fp op v⟩
  by_cases h12 : kind = str "orientation"
  · exact ⟨_, h12 ▸ check_orientation_eval md fp op v⟩
  by_cases h13 : kind = str "pix_fmt"
  · exact ⟨_, h13 ▸ check_pix_fmt_eval md fp op v⟩
  by_cases h14 : kind = str "framerate"
  · exact ⟨_, h14 ▸ check_framerate_eval md fp op v⟩
  refine ⟨false, check_unknown_eval md fp kind op v ?_⟩
  rw [RECOGNISED_KINDS]
  simp only [List.mem_cons, List.not_mem_nil, or_false, not_or]
  exact ⟨h1, h2, h3, hd, hs, h6, h7, h8, h9, h10, h11, h12, h13, h14⟩

/-! ### Token anatomy: the part before and after the first colon -/

lemma dur_units_colon_not (u : Str)
    (h : lowerCL u ∈ [str "sec", str "s", str "seconds"] ∨
      lowerCL u ∈ [str "min", str "m", str "minutes"] ∨
      lowerCL u ∈ [str "hr", str "h", str "hours"]) : ':' ∉ u := by
  intro hc
  have hcl := lowerCL_colon_mem u hc
  rcases h with h | h | h <;>
    (simp only [List.mem_cons, List.not_mem_nil, or_false] at h;
     rcases h with h | h | h <;> (rw [h] at hcl; exact absurd hcl (by decide)))

lemma parse_duration_two (v u : Str) (hv : ':' ∉ v) (hu : ':' ∉ u) :
    parse_duration_arg (v ++ ':' :: u) =
      (match pyFloat? v with
       | none => .error ()
       | some value =>
         if lowerCL u ∈ [str "sec", str "s", str "seconds"] then .ok (value * 1)
         else if lowerCL u ∈ [str "min", str "m", str "minutes"] then .ok (value * 60)
         else if lowerCL u ∈ [str "hr", str "h", str "hours"] then .ok (value * 3600)
         else .error ()) := by
  simp only [parse_duration_arg, splitOnChar_two ':' v u hv hu]

lemma parse_size_two (v u : Str) (hv : ':' ∉ v) (hu : ':' ∉ u) :
    parse_size_arg (v ++ ':' :: u) =
      (match pyFloat? v with
       | none => .error ()
       | some value =>
         if (SIZE_UNITS (lowerCL u)).isSome then .ok (value, lowerCL u)
         else .error ()) := by
  simp only [parse_size_arg, splitOnChar_two ':' v u hv hu]

lemma parse_size_ok (numS unitS : Str) (n m : ℚ)
    (hn : pyFloat? numS = some n) (hm : SIZE_UNITS (lowerCL unitS) = some m) :
    parse_size_arg (numS ++ ':' :: unitS) = .ok (n, lowerCL unitS) := by
  have hcn := pyFloat_colon_not _ _ hn
  have hcu := SIZE_UNITS_lower_colon_not _ _ hm
  rw [parse_size_two _ _ hcn hcu, hn, hm]
  rfl

lemma parse_duration_ok1 (numS unitS : Str) (n : ℚ)
    (hn : pyFloat? numS = some n) (hu : lowerCL unitS ∈ [str "sec", str "s", str "seconds"]) :
    parse_duration_arg (numS ++ ':' :: unitS) = .ok (n * 1) := by
  have hcn := pyFloat_colon_not _ _ hn
  have hcu := dur_units_colon_not _ (Or.inl hu)
  rw [parse_duration_two _ _ hcn hcu, hn]
  simp only [if_pos hu]

lemma pyFloat_1 : pyFloat? (str "1") = some 1 := by
  rw [show pyFloat? (str "1") = some (1 * (digitsVal (str "1") : ℚ)) from rfl,
    show digitsVal (str "1") = 1 from by decide]
  norm_num

lemma pyFloat_5 : pyFloat? (str "5") = some 5 := by
  rw [show pyFloat? (str "5") = some (1 * (digitsVal (str "5") : ℚ)) from rfl,
    show digitsVal (str "5") = 5 from by decide]
  norm_num

lemma pyFloat_100 : pyFloat? (str "100") = some 100 := by
  rw [show pyFloat? (str "100") = some (1 * (digitsVal (str "100") : ℚ)) from rfl,
    show digitsVal (str "100") = 100 from by decide]
  norm_num

lemma pyFloat_200 : pyFloat? (str "200") = some 200 := by
  rw [show pyFloat? (str "200") = some (1 * (digitsVal (str "200") : ℚ)) from rfl,
    show digitsVal (str "200") = 200 from by decide]
  norm_num

lemma pyFloat_203 : pyFloat? (str "203") = some 203 := by
  rw [show pyFloat? (str "203") = some (1 * (digitsVal (str "203") : ℚ)) from rfl,
    show digitsVal (str "203") = 203 from by decide]
  norm_num

lemma parse_size_100mb : parse_size_arg (str "100:mb") = .ok (100, str "mb") :=
  parse_size_ok (str "100") (str "mb") 100 (1024 * 1024) pyFloat_100 rfl

lemma parse_size_200b : parse_size_arg (str "200:b") = .ok (200, str "b") :=
  parse_size_ok (str "200") (str "b") 200 1 pyFloat_200 rfl

lemma parse_size_200kb : parse_size_arg (str "200:kb") = .ok (200, str "kb") :=
  parse_size_ok (str "200") (str "kb") 200 1024 pyFloat_200 rfl

lemma parse_dur_200s : parse_duration_arg (str "200:s") = .ok 200 := by
  rw [show str "200:s" = str "200" ++ ':' :: str "s" from rfl,
    parse_duration_ok1 (str "200") (str "s") 200 pyFloat_200 (by decide)]
  norm_num

lemma parse_dur_5sec : parse_duration_arg (str "5:sec") = .ok 5 := by
  rw [show str "5:sec" = str "5" ++ ':' :: str "sec" from rfl,
    parse_duration_ok1 (str "5") (str "sec") 5 pyFloat_5 (by decide)]
  norm_num

lemma parse_frame_rate_eval (fr_str numS denS : Str) (nu de : ℚ)
    (hs : splitOnChar '/' fr_str = [numS, denS])
    (hn : pyFloat? numS = some nu) (hd : pyFloat? denS = some de) (hde : ¬de = 0) :
    parse_frame_rate fr_str = nu / de := by
  simp only [parse_frame_rate, hs, hn, hd]
  rw [if_neg hde]

lemma parse_frame_rate_203_1 : parse_frame_rate (str "203/1") = 203 := by
  rw [parse_frame_rate_eval (str "203/1") (str "203") (str "1") 203 1 rfl
    pyFloat_203 pyFloat_1 (by norm_num)]
  norm_num

/-! ### Claim theorems -/

/-- C1 (code bug): the spec — and `get_and_check_file`'s own docstring —
say that a video file whose metadata satisfies the criteria has its path
returned and appended to the matched result set, and that a file failing
the criteria is skipped with reason "criteria not met".  The code does
neither: after fetching metadata, `get_and_check_file` (lines 542-556)
falls off its end without ever calling `satisfies_conditions`, so it
returns `None` for every file.  Evaluated at the spec's own scenario
(`movie.mp4`, 200 MiB, expression `[size gte 100:mb]`): the expression is
satisfied, the file is a video, yet the worker result is `None` and the
final matched result set is empty instead of `{movie.mp4}`. -/
theorem c1_match_reporting_code_bug :
    satisfies_conditions movieMeta (str "/media/movie.mp4") sizeGte100mb = .ok true ∧
    is_video (str "/media/movie.mp4") = true ∧
    (get_and_check_file (fun _ => some movieMeta) (str "/media/movie.mp4")
      sizeGte100mb).result = none ∧
    main_results (fun _ => some movieMeta) [(str "/media", [str "movie.mp4"])]
      sizeGte100mb = [] := by
  refine ⟨?_, rfl, rfl, rfl⟩
  have hchk : check_criteria movieMeta (str "/media/movie.mp4") (str "size") (str "gte")
      (str "100:mb") = .ok true := by
    rw [check_size_eval, parse_size_100mb]
    simp only []
    rw [show movieMeta.size = 209715200 from rfl,
      show (SIZE_UNITS (str "mb")).getD 0 = 1024 * 1024 from rfl, comp_chain_gte_at,
      decide_eq_true (show (209715200 : ℚ) ≥ 100 * (1024 * 1024) from by norm_num)]
  simp only [satisfies_conditions, sizeGte100mb]
  rw [hchk]
  rfl

/-- C2 counterexample: the claim says `check_criteria` never raises and
that a malformed value token degrades that criterion to `false`.  For the
`duration` kind the parse is not protected: a malformed token makes
`parse_duration_arg` raise `ValueError`, which propagates out of
`check_criteria` (modelled as `.error ()`). -/
theorem c2_counterexample_duration_raises :
    check_criteria mdPlain (str "/a/f.mp4") (str "duration") (str "eq") (str "oops")
      = .error () := rfl

/-- C2 (amended): `check_criteria` raises exactly when the criterion kind
is `duration` or `size` and its value token fails the corresponding unit
parser; every other kind always returns a boolean — in particular the
`bitrate` branch wraps its parse in `try/except` and degrades a malformed
token to `false`. -/
theorem c2_error_characterisation :
    (∀ (md : MediaRecord) (fp kind op v : Str),
      check_criteria md fp kind op v = .error () ↔
        ((kind = str "duration" ∧ parse_duration_arg v = .error ()) ∨
         (kind = str "size" ∧ parse_size_arg v = .error ()))) ∧
    (∀ (md : MediaRecord) (fp op v : Str),
      parse_size_arg v = .error () →
        check_criteria md fp (str "bitrate") op v = .ok false) := by
  constructor
  · intro md fp kind op v
    by_cases hd : kind = str "duration"
    · subst hd
      rw [check_duration_error_iff]
      constructor
      · intro h; exact Or.inl ⟨rfl, h⟩
      · rintro (⟨_, h⟩ | ⟨he, _⟩)
        · exact h
        · exact absurd he (by decide)
    · by_cases hs : kind = str "size"
      · subst hs
        rw [check_size_error_iff]
        constructor
        · intro h; exact Or.inr ⟨rfl, h⟩
        · rintro (⟨he, _⟩ | ⟨_, h⟩)
          · exact absurd he (by decide)
          · exact h
      · obtain ⟨b, hb⟩ := check_no_error_other md fp kind op v hd hs
        rw [hb]
        constructor
        · intro h; exact Except.noConfusion h
        · rintro (⟨he, _⟩ | ⟨he, _⟩)
          · exact absurd he hd
          · exact absurd he hs
  · intro md fp op v h
    rw [check_bitrate_eval, h]

/-- C2 witness: a malformed bitrate token degrades to `false` (while the
same token under `duration` raises, per the counterexample). -/
theorem c2_witness :
    check_criteria mdPlain (str "/a/f.mp4") (str "bitrate") (str "eq") (str "junk")
      = .ok false :=
  c2_error_characterisation.2 mdPlain (str "/a/f.mp4") (str "eq") (str "junk") rfl

/-- C3 (confirmed): `satisfies_conditions` is exactly the strict
left-to-right fold of the ordered per-criterion evaluations — every
criterion is evaluated in construction order (stopping only at a raised
exception), the result is seeded with the first evaluation and combined
left-to-right with AND as the default operator, with no AND-before-OR
precedence; the empty list yields `true`. -/
theorem c3_left_to_right_fold (md : MediaRecord) (fp : Str) (l : List Criterion) :
    satisfies_conditions md fp l = (eval_list md fp l).map ltr_combine := by
  cases l with
  | nil => rfl
  | cons c cs =>
    show (match check_criteria md fp c.crit c.comp_operator c.value with
          | .error e => .error e
          | .ok result => satisfies_loop md fp cs result) =
        (eval_list md fp (c :: cs)).map ltr_combine
    rw [eval_list, criterion_eval]
    cases hc : check_criteria md fp c.crit c.comp_operator c.value with
    | error e => rfl
    | ok b =>
      show satisfies_loop md fp cs b =
        Except.map ltr_combine
          (match eval_list md fp cs with
           | .error e2 => .error e2
           | .ok es => .ok ((b, c.logical) :: es))
      rw [satisfies_loop_eq]
      cases he : eval_list md fp cs with
      | error e2 => rfl
      | ok es => rfl

/-- C4 counterexample: the claim says a non-video file is skipped
synchronously with reason "not a video extension" and no worker task is
spawned.  In the code `main` submits every walked file to the executor
(lines 577-580) — here `notes.txt` appears in the job list — and the
worker emits no output at all for it (the only skip message
`get_and_check_file` can print is the metadata one). -/
theorem c4_counterexample_task_spawned :
    is_video (str "/d/notes.txt") = false ∧
    main_jobs [(str "/d", [str "notes.txt"])] = [str "/d/notes.txt"] ∧
    get_and_check_file (fun _ => none) (str "/d/notes.txt") [] =
      { result := none, fetched := [], skip_prints := [] } := ⟨rfl, rfl, rfl⟩

/-- C4 (amended): every file produced by the walk, video or not, is
submitted to the worker pool; a file whose extension is not in the
recognised set makes its worker task return `None` immediately, with no
call to the metadata fetcher and no output, regardless of the criteria. -/
theorem c4_nonvideo_dispatch :
    (∀ (walk : List (Str × List Str)) (rf : Str × List Str) (f : Str),
      rf ∈ walk → f ∈ rf.2 → joinPath rf.1 f ∈ main_jobs walk) ∧
    (∀ (fetch : Str → Option MediaRecord) (fp : Str) (criteria : List Criterion),
      is_video fp = false →
        get_and_check_file fetch fp criteria =
          { result := none, fetched := [], skip_prints := [] }) := by
  constructor
  · intro walk rf f hw hf
    rw [main_jobs]
    exact List.mem_flatMap.mpr ⟨rf, hw, List.mem_map_of_mem _ hf⟩
  · intro fetch fp criteria h
    rw [get_and_check_file, if_neg (by simp [h])]

/-- C4 witness: a `.txt` file is placed in the job list, and its worker
run fetches nothing and prints nothing. -/
theorem c4_witness :
    joinPath (str "/d") (str "a.txt") ∈ main_jobs [(str "/d", [str "a.txt"])] ∧
    get_and_check_file (fun _ => none) (str "/d/a.txt") [] =
      { result := none, fetched := [], skip_prints := [] } :=
  ⟨c4_nonvideo_dispatch.1 [(str "/d", [str "a.txt"])] (str "/d", [str "a.txt"])
      (str "a.txt") (List.mem_singleton.mpr rfl) (List.mem_singleton.mpr rfl),
   c4_nonvideo_dispatch.2 (fun _ => none) (str "/d/a.txt") [] rfl⟩

/-- C5 (confirmed): for every continuous numeric criterion kind
(duration, size, bitrate, width, height, framerate), `eq` uses
`math.isclose` with 1 percent relative tolerance while `gte` is the exact
comparison: for any positive target, a field value exactly 1.5 percent
above the target fails `eq` and passes `gte`. -/
theorem c5_eq_tolerance (t : ℚ) (ht : 0 < t) :
    (∀ (md : MediaRecord) (fp v : Str), parse_duration_arg v = .ok t →
      md.duration = (1015 / 1000) * t →
      check_criteria md fp (str "duration") (str "eq") v = .ok false ∧
      check_criteria md fp (str "duration") (str "gte") v = .ok true) ∧
    (∀ (md : MediaRecord) (fp v : Str) (vu : ℚ × Str), parse_size_arg v = .ok vu →
      vu.1 * (SIZE_UNITS vu.2).getD 0 = t →
      md.size = (1015 / 1000) * t →
      check_criteria md fp (str "size") (str "eq") v = .ok false ∧
      check_criteria md fp (str "size") (str "gte") v = .ok true) ∧
    (∀ (md : MediaRecord) (fp v : Str), parse_size_arg v = .ok (t, str "kb") →
      md.bit_rate = some ((1015 / 1000) * t) →
      check_criteria md fp (str "bitrate") (str "eq") v = .ok false ∧
      check_criteria md fp (str "bitrate") (str "gte") v = .ok true) ∧
    (∀ (md : MediaRecord) (fp v : Str) (vs : StreamInfo),
      find_video_stream md = some vs →
      pyFloat? ((splitOnChar ':' v).headD []) = some t →
      vs.width = some ((1015 / 1000) * t) →
      check_criteria md fp (str "width") (str "eq") v = .ok false ∧
      check_criteria md fp (str "width") (str "gte") v = .ok true) ∧
    (∀ (md : MediaRecord) (fp v : Str) (vs : StreamInfo),
      find_video_stream md = some vs →
      pyFloat? ((splitOnChar ':' v).headD []) = some t →
      vs.height = some ((1015 / 1000) * t) →
      check_criteria md fp (str "height") (str "eq") v = .ok false ∧
      check_criteria md fp (str "height") (str "gte") v = .ok true) ∧
    (∀ (md : MediaRecord) (fp v : Str) (vs : StreamInfo),
      find_video_stream md = some vs →
      pyFloat? ((splitOnChar ':' v).headD []) = some t →
      parse_frame_rate (vs.r_frame_rate.getD (str "0/1")) = (1015 / 1000) * t →
      check_criteria md fp (str "framerate") (str "eq") v = .ok false ∧
      check_criteria md fp (str "framerate") (str "gte") v = .ok true) := by
  refine ⟨?_, ?_, ?_, ?_, ?_, ?_⟩
  · intro md fp v hp hd
    constructor
    · rw [check_duration_eval, hp]
      simp only []
      rw [hd, comp_chain_eq_at, isclose_above_false t ht]
    · rw [check_duration_eval, hp]
      simp only []
      rw [hd, comp_chain_gte_at, decide_ge_above t ht]
  · intro md fp v vu hp htg hsz
    constructor
    · rw [check_size_eval, hp]
      simp only []
      rw [htg, hsz, comp_chain_eq_at, isclose_above_false t ht]
    · rw [check_size_eval, hp]
      simp only []
      rw [htg, hsz, comp_chain_gte_at, decide_ge_above t ht]
  · intro md fp v hp hbr
    constructor
    · rw [check_bitrate_eval, hp]
      simp only [record_bitrate, hbr]
      rw [if_pos trivial, comp_chain_eq_at, isclose_above_false t ht]
    · rw [check_bitrate_eval, hp]
      simp only [record_bitrate, hbr]
      rw [if_pos trivial, comp_chain_gte_at, decide_ge_above t ht]
  · intro md fp v vs hfv hpf hw
    constructor
    · rw [check_width_eval]
      simp only [hfv, hpf, hw]
      rw [comp_chain_eq_at, isclose_above_false t ht]
    · rw [check_width_eval]
      simp only [hfv, hpf, hw]
      rw [comp_chain_gte_at, decide_ge_above t ht]
  · intro md fp v vs hfv hpf hh
    constructor
    · rw [check_height_eval]
      simp only [hfv, hpf, hh]
      rw [comp_chain_eq_at, isclose_above_false t ht]
    · rw [check_height_eval]
      simp only [hfv, hpf, hh]
      rw [comp_chain_gte_at, decide_ge_above t ht]
  · intro md fp v vs hfv hpf hfr
    constructor
    · rw [check_framerate_eval]
      simp only [hfv, hpf, hfr]
      rw [comp_chain_eq_at, isclose_above_false t ht]
    · rw [check_framerate_eval]
      simp only [hfv, hpf, hfr]
      rw [comp_chain_gte_at, decide_ge_above t ht]

/-- C5 witness: with every numeric field of `mdW` at 203 = 1.015 × 200 and
targets parsing to 200, each of the six kinds fails `eq` and passes
`gte`. -/
theorem c5_witness :
    check_criteria mdW (str "/m/v.mp4") (str "duration") (str "eq") (str "200:s")
      = .ok false ∧
    check_criteria mdW (str "/m/v.mp4") (str "duration") (str "gte") (str "200:s")
      = .ok true ∧
    check_criteria mdW (str "/m/v.mp4") (str "size") (str "eq") (str "200:b")
      = .ok false ∧
    check_criteria mdW (str "/m/v.mp4") (str "size") (str "gte") (str "200:b")
      = .ok true ∧
    check_criteria mdW (str "/m/v.mp4") (str "bitrate") (str "eq") (str "200:kb")
      = .ok false ∧
    check_criteria mdW (str "/m/v.mp4") (str "bitrate") (str "gte") (str "200:kb")
      = .ok true ∧
    check_criteria mdW (str "/m/v.mp4") (str "width") (str "eq") (str "200")
      = .ok false ∧
    check_criteria mdW (str "/m/v.mp4") (str "width") (str "gte") (str "200")
      = .ok true ∧
    check_criteria mdW (str "/m/v.mp4") (str "height") (str "eq") (str "200")
      = .ok false ∧
    check_criteria mdW (str "/m/v.mp4") (str "height") (str "gte") (str "200")
      = .ok true ∧
    check_criteria mdW (str "/m/v.mp4") (str "framerate") (str "eq") (str "200")
      = .ok false ∧
    check_criteria mdW (str "/m/v.mp4") (str "framerate") (str "gte") (str "200")
      = .ok true := by
  obtain ⟨h1, h2, h3, h4, h5, h6⟩ := c5_eq_tolerance 200 (by norm_num)
  have hdur : mdW.duration = (1015 / 1000) * 200 := by
    rw [show mdW.duration = 203 from rfl]; norm_num
  have hsz : mdW.size = (1015 / 1000) * 200 := by
    rw [show mdW.size = 203 from rfl]; norm_num
  have hbr : mdW.bit_rate = some ((1015 / 1000) * 200) := by
    rw [show mdW.bit_rate = some 203 from rfl]; norm_num
  have htg : ((200 : ℚ), str "b").1 * (SIZE_UNITS ((200 : ℚ), str "b").2).getD 0 = 200 := by
    show (200 : ℚ) * (SIZE_UNITS (str "b")).getD 0 = 200
    rw [show (SIZE_UNITS (str "b")).getD 0 = (1 : ℚ) from rfl]
    norm_num
  have hfv : find_video_stream mdW = some vsW := rfl
  have hpf : pyFloat? ((splitOnChar ':' (str "200")).headD []) = some 200 := pyFloat_200
  have hwd : vsW.width = some ((1015 / 1000) * 200) := by
    rw [show vsW.width = some 203 from rfl]; norm_num
  have hht : vsW.height = some ((1015 / 1000) * 200) := by
    rw [show vsW.height = some 203 from rfl]; norm_num
  have hfr : parse_frame_rate (vsW.r_frame_rate.getD (str "0/1")) = (1015 / 1000) * 200 := by
    rw [show vsW.r_frame_rate.getD (str "0/1") = str "203/1" from rfl, parse_frame_rate_203_1]
    norm_num
  obtain ⟨d1, d2⟩ := h1 mdW (str "/m/v.mp4") (str "200:s") parse_dur_200s hdur
  obtain ⟨s1, s2⟩ := h2 mdW (str "/m/v.mp4") (str "200:b") (200, str "b") parse_size_200b htg hsz
  obtain ⟨b1, b2⟩ := h3 mdW (str "/m/v.mp4") (str "200:kb") parse_size_200kb hbr
  obtain ⟨w1, w2⟩ := h4 mdW (str "/m/v.mp4") (str "200") vsW hfv hpf hwd
  obtain ⟨e1, e2⟩ := h5 mdW (str "/m/v.mp4") (str "200") vsW hfv hpf hht
  obtain ⟨f1, f2⟩ := h6 mdW (str "/m/v.mp4") (str "200") vsW hfv hpf hfr
  exact ⟨d1, d2, s1, s2, b1, b2, w1, w2, e1, e2, f1, f2⟩

/-- C8 (confirmed): a bitrate criterion whose value parses as
`"<n>:<unit>"` scales decimally — kb multiplies by 1, mb by 1000, gb by
1,000,000 (not the 1024-based size multipliers) — and the target is
compared (by whatever comparison operator) against the record's reported
bitrate field. -/
theorem c8_bitrate_decimal_scaling (md : MediaRecord) (fp op numS unitS : Str) (n m : ℚ)
    (hn : pyFloat? numS = some n)
    (hu : (lowerCL unitS = str "kb" ∧ m = 1) ∨ (lowerCL unitS = str "mb" ∧ m = 1000) ∨
      (lowerCL unitS = str "gb" ∧ m = 1000000)) :
    check_criteria md fp (str "bitrate") op (numS ++ ':' :: unitS) =
      .ok (comp_chain op (record_bitrate md) (n * m)) := by
  rcases hu with ⟨h1, h2⟩ | ⟨h1, h2⟩ | ⟨h1, h2⟩
  · have hsz : SIZE_UNITS (lowerCL unitS) = some 1024 := by rw [h1]; rfl
    rw [check_bitrate_eval, parse_size_ok numS unitS n 1024 hn hsz]
    simp only []
    rw [h1, if_pos rfl, h2, mul_one]
  · have hsz : SIZE_UNITS (lowerCL unitS) = some (1024 * 1024) := by rw [h1]; rfl
    rw [check_bitrate_eval, parse_size_ok numS unitS n (1024 * 1024) hn hsz]
    simp only []
    rw [h1, if_neg (by decide), if_pos rfl, h2]
  · have hsz : SIZE_UNITS (lowerCL unitS) = some (1024 * 1024 * 1024) := by rw [h1]; rfl
    rw [check_bitrate_eval, parse_size_ok numS unitS n (1024 * 1024 * 1024) hn hsz]
    simp only []
    rw [h1, if_neg (by decide), if_neg (by decide), if_pos rfl, h2]

/-- C8 witness: `-bitrate -gte 200:mb` targets 200 × 1000 = 200000 on the
kbps-equivalent scale, so a record bitrate of 250000 passes. -/
theorem c8_witness :
    check_criteria mdW8 (str "/m/v.mp4") (str "bitrate") (str "gte") (str "200:mb")
      = .ok true := by
  rw [show str "200:mb" = str "200" ++ ':' :: str "mb" from rfl,
    c8_bitrate_decimal_scaling mdW8 (str "/m/v.mp4") (str "gte") (str "200") (str "mb")
      200 1000 pyFloat_200 (Or.inr (Or.inl ⟨rfl, rfl⟩)),
    show record_bitrate mdW8 = 250000 from rfl, comp_chain_gte_at,
    decide_eq_true (show (250000 : ℚ) ≥ 200 * 1000 from by norm_num)]

/-- C9 (confirmed): when the record has no stream of type "video", every
video-stream-dependent criterion kind evaluates to `false` without
raising, for every comparison operator and value. -/
theorem c9_no_video_stream (md : MediaRecord) (fp kind op v : Str)
    (hstream : find_video_stream md = none)
    (hkind : kind ∈ [str "codec_name", str "codec_tag", str "aspect", str "width",
      str "height", str "orientation", str "pix_fmt", str "framerate"]) :
    check_criteria md fp kind op v = .ok false := by
  simp only [List.mem_cons, List.not_mem_nil, or_false] at hkind
  rcases hkind with h | h | h | h | h | h | h | h <;> subst h
  · rw [check_codec_name_eval, hstream]
  · rw [check_codec_tag_eval, hstream]
  · rw [check_aspect_eval, hstream]
  · rw [check_width_eval, hstream]
  · rw [check_height_eval, hstream]
  · rw [check_orientation_eval, hstream]
  · rw [check_pix_fmt_eval, hstream]
  · rw [check_framerate_eval, hstream]

/-- C9 witness: a record whose only stream is audio fails a codec_name
criterion with `false` rather than raising. -/
theorem c9_witness :
    check_criteria mdNoStream (str "/m/v.mp4") (str "codec_name") (str "eq") (str "h264")
      = .ok false :=
  c9_no_video_stream mdNoStream (str "/m/v.mp4") (str "codec_name") (str "eq")
    (str "h264") rfl (by decide)

/-- C10 counterexample: the claim says a recognised numeric kind paired
with an unknown comparison operator returns `false` rather than raising.
For `duration` the value token is parsed before the operator is
inspected, so a malformed value raises even under an unknown operator. -/
theorem c10_counterexample_unknown_op_raises :
    check_criteria mdPlain (str "/a/f.mp4") (str "duration") (str "neq") (str "xx")
      = .error () := rfl

/-- C10 (amended): a criterion kind outside the fourteen recognised kinds
always yields `false`; a recognised numeric kind paired with an operator
outside eq/gt/gte/lt/lte yields `false` for every value for width, height
and framerate, and for duration and size whenever the value token parses
(a malformed duration or size token raises regardless of the
operator). -/
theorem c10_catch_all_false :
    (∀ (md : MediaRecord) (fp kind op v : Str), kind ∉ RECOGNISED_KINDS →
      check_criteria md fp kind op v = .ok false) ∧
    (∀ (md : MediaRecord) (fp op v : Str),
      op ∉ [str "eq", str "gt", str "gte", str "lt", str "lte"] →
      check_criteria md fp (str "width") op v = .ok false ∧
      check_criteria md fp (str "height") op v = .ok false ∧
      check_criteria md fp (str "framerate") op v = .ok false ∧
      (∀ t : ℚ, parse_duration_arg v = .ok t →
        check_criteria md fp (str "duration") op v = .ok false) ∧
      (∀ r : ℚ × Str, parse_size_arg v = .ok r →
        check_criteria md fp (str "size") op v = .ok false)) := by
  constructor
  · exact check_unknown_eval
  · intro md fp op v hop
    refine ⟨?_, ?_, ?_, ?_, ?_⟩
    · rw [check_width_eval]
      cases hfv : find_video_stream md with
      | none => rfl
      | some vs =>
        simp only []
        cases hpf : pyFloat? ((splitOnChar ':' v).headD []) with
        | none => rfl
        | some target =>
          simp only []
          cases hw : vs.width with
          | none => rfl
          | some current =>
            simp only []
            rw [comp_chain_unknown op current target hop]
    · rw [check_height_eval]
      cases hfv : find_video_stream md with
      | none => rfl
      | some vs =>
        simp only []
        cases hpf : pyFloat? ((splitOnChar ':' v).headD []) with
        | none => rfl
        | some target =>
          simp only []
          cases hh : vs.height with
          | none => rfl
          | some current =>
            simp only []
            rw [comp_chain_unknown op current target hop]
    · rw [check_framerate_eval]
      cases hfv : find_video_stream md with
      | none => rfl
      | some vs =>
        simp only []
        cases hpf : pyFloat? ((splitOnChar ':' v).headD []) with
        | none => rfl
        | some target =>
          simp only []
          rw [comp_chain_unknown op
            (parse_frame_rate (vs.r_frame_rate.getD (str "0/1"))) target hop]
    · intro t hpt
      rw [check_duration_eval, hpt]
      simp only []
      rw [comp_chain_unknown op md.duration t hop]
    · intro r hpr
      rw [check_size_eval, hpr]
      simp only []
      rw [comp_chain_unknown op md.size (r.1 * (SIZE_UNITS r.2).getD 0) hop]

/-- C10 witness: an unrecognised kind yields `false`; width and duration
with the unknown operator `neq` yield `false` (duration on a well-formed
token). -/
theorem c10_witness :
    check_criteria mdPlain (str "/a/f.mp4") (str "subtitle") (str "eq") (str "x")
      = .ok false ∧
    check_criteria mdPlain (str "/a/f.mp4") (str "width") (str "neq") (str "100")
      = .ok false ∧
    check_criteria mdPlain (str "/a/f.mp4") (str "duration") (str "neq") (str "5:sec")
      = .ok false := by
  refine ⟨c10_catch_all_false.1 mdPlain (str "/a/f.mp4") (str "subtitle") (str "eq")
    (str "x") (by decide), ?_, ?_⟩
  · exact (c10_catch_all_false.2 mdPlain (str "/a/f.mp4") (str "neq") (str "100")
      (by decide)).1
  · exact (c10_catch_all_false.2 mdPlain (str "/a/f.mp4") (str "neq") (str "5:sec")
      (by decide)).2.2.2.1 5 parse_dur_5sec
